import Mathlib

/-!
Shallow embedding of the conversation controller in src/src/openai.rs
(repository refcell/run-wild).

The controller owns a goal string, the URL of the current page and a list
of role-tagged messages. Its single operation, request_action, performs
context maintenance (enforce_context_length), appends a User prompt,
submits the history to the completion service, appends the reply as an
Assistant message and decodes it into an Action.

External collaborators are passed in as explicit values: the URL parser
(the url crate) as a function String -> Option Url, the completion
service outcome as an Option CreateChatCompletionResponse (none models a
transport or build failure), and the action decoder as a function
String -> Option Action. The call to expect on the usage field is
modelled by a distinct panicked outcome, since a Rust panic aborts the
process rather than returning an error value.
-/

namespace RunWild

/-- Message role, from async_openai Role as used by the source. -/
inductive Role where
  | system
  | user
  | assistant
  deriving DecidableEq, Repr

/-- A request message: optional sender name, role and content,
from async_openai ChatCompletionRequestMessage. -/
structure ChatCompletionRequestMessage where
  name : Option String
  role : Role
  content : String
  deriving DecidableEq, Repr

/-- A response message, from async_openai ChatCompletionResponseMessage. -/
structure ChatCompletionResponseMessage where
  role : Role
  content : String
  deriving DecidableEq, Repr

/-- One completion choice, wrapping a response message. -/
structure Choice where
  message : ChatCompletionResponseMessage
  deriving DecidableEq, Repr

/-- Token usage telemetry attached to a completion response. -/
structure Usage where
  total_tokens : Nat
  deriving DecidableEq, Repr

/-- A completion response: a list of choices and optional usage
telemetry. -/
structure CreateChatCompletionResponse where
  choices : List Choice
  usage : Option Usage
  deriving DecidableEq, Repr

/-- A parsed URL, with the components relevant to the controller: the
host is the component the context-reset test compares, and it can be
absent (host-less schemes such as mailto or data). Scheme, port and path
are carried to show they play no part in the comparison. -/
structure Url where
  scheme : String
  host : Option String
  port : Option Nat
  path : String
  deriving DecidableEq, Repr

/-- Modelled from the spec: the typed command crate::Action decoded from
the model reply. Its definition lives outside src/ (only openai.rs is
available); the spec lists exactly these three variants. -/
inductive Action where
  | click (elementId : Nat)
  | typeText (elementId : Nat) (text : String)
  | goal (text : String)
  deriving DecidableEq, Repr

/-- The distinct error kinds request_action can return. -/
inductive RequestError where
  | invalidUrl
  | completionFailed
  | noCompletionChoice
  | actionDecodeFailed (raw : String)
  deriving DecidableEq, Repr

/-- The outcome of one request_action call. The panicked constructor
models the Rust expect call aborting the process. -/
inductive RequestOutcome where
  | ok (a : Action)
  | err (e : RequestError)
  | panicked (msg : String)
  deriving DecidableEq, Repr

/-- The conversation state: goal, current URL and message history. The
client field of the Rust struct is the network handle and carries no
state relevant to the claims. -/
structure Conversation where
  goal : String
  url : Option Url
  messages : List ChatCompletionRequestMessage
  deriving DecidableEq, Repr

/-- The fixed system prompt, the formatdoc literal of the source after
indentation stripping. -/
def systemPrompt : String :=
  "You are an agent controlling a browser. You are given the URL of the current website, and a simplified markup description of the page contents, which looks like this:\n"
  ++ "<p id=0>text</p>\n"
  ++ "<link id=1 href=\"link url\">text</link>\n"
  ++ "<button id=2>text</button>\n"
  ++ "<input id=3>placeholder</input>\n"
  ++ "<img id=4 alt=\"image description\"/>\n"
  ++ "\n"
  ++ "You are not given a goal but should create and alter a goal based on the previous actions you have taken. Your initial goal should be to visit at least 10 webpages and update your goal based on the content of those page.\n"
  ++ "\n"
  ++ "You must respond with ONLY one of the following commands AND NOTHING ELSE:\n"
  ++ "    - CLICK X - click on a given element. You can only click on links, buttons, and inputs!\n"
  ++ "    - TYPE X \"TEXT\" - type the specified text into the input with id X and press ENTER\n"
  ++ "    - GOAL \"TEXT\" - Outputs your updated goal.\n"

/-- The fixed System message placed at index 0 of every history. -/
def system_message : ChatCompletionRequestMessage :=
  ChatCompletionRequestMessage.mk none Role.system systemPrompt

/-- Conversation default value: hardcoded goal, no URL yet, history
holding only the system message. -/
def Conversation.default : Conversation :=
  Conversation.mk "Visit 10 webpages." none [system_message]

/-- enforce_context_length: parse the URL (failing with the invalid-URL
error and no mutation when the parse fails); when the stored host
differs from the new host, keep only the first history entry (the Rust
drain of all but index 0); finally store the new URL unconditionally.
Returns the updated conversation and an optional error. -/
def enforce_context_length (parse : String → Option Url) (conv : Conversation)
    (url : String) : Conversation × Option RequestError :=
  match parse url with
  | none => (conv, some RequestError.invalidUrl)
  | some new_url =>
      let messages :=
        if conv.url.map Url.host ≠ some new_url.host then
          conv.messages.take 1
        else
          conv.messages
      (Conversation.mk conv.goal (some new_url) messages, none)

/-- The User message pushed by request_action: the three labeled fields
of the Rust format string. -/
def build_user_message (goal url page_content : String) :
    ChatCompletionRequestMessage :=
  ChatCompletionRequestMessage.mk none Role.user
    ("OBJECTIVE: " ++ goal ++ "\nCURRENT URL: " ++ url ++ "\nPAGE CONTENT: " ++ page_content)

/-- The tail of request_action after the User prompt has been pushed:
await the completion (a none response models a transport or build
failure), log usage (the expect call that panics when usage is absent),
take choice 0 (failing with the no-choice error when the list is empty),
push the reply with the role the service assigned, and decode the reply
text. -/
def respond (decode : String → Option Action) (conv2 : Conversation)
    (response : Option CreateChatCompletionResponse) :
    Conversation × RequestOutcome :=
  match response with
  | none => (conv2, RequestOutcome.err RequestError.completionFailed)
  | some resp =>
      match resp.usage with
      | none => (conv2, RequestOutcome.panicked "Usage should be present.")
      | some _ =>
          match resp.choices.head? with
          | none => (conv2, RequestOutcome.err RequestError.noCompletionChoice)
          | some choice =>
              let conv3 := Conversation.mk conv2.goal conv2.url
                (conv2.messages ++ [ChatCompletionRequestMessage.mk none
                  choice.message.role choice.message.content])
              match decode choice.message.content with
              | none => (conv3, RequestOutcome.err
                  (RequestError.actionDecodeFailed choice.message.content))
              | some a => (conv3, RequestOutcome.ok a)

/-- request_action: context maintenance, push the User prompt, then the
completion and decode stage (respond). -/
def request_action (parse : String → Option Url) (decode : String → Option Action)
    (conv : Conversation) (url page_content : String)
    (response : Option CreateChatCompletionResponse) :
    Conversation × RequestOutcome :=
  match enforce_context_length parse conv url with
  | (conv1, some e) => (conv1, RequestOutcome.err e)
  | (conv1, none) =>
      respond decode
        (Conversation.mk conv1.goal conv1.url
          (conv1.messages ++ [build_user_message conv1.goal url page_content]))
        response

/-- The observable inputs of one request_action call. -/
structure CallInput where
  url : String
  page_content : String
  response : Option CreateChatCompletionResponse

/-- Run a sequence of request_action calls, threading the conversation
state and discarding each call outcome. -/
def runCalls (parse : String → Option Url) (decode : String → Option Action)
    (conv : Conversation) : List CallInput → Conversation
  | [] => conv
  | c :: cs =>
      runCalls parse decode
        (request_action parse decode conv c.url c.page_content c.response).1 cs

/-! ## Helper lemmas -/

theorem head?_take_one {α : Type} (l : List α) : (l.take 1).head? = l.head? := by
  cases l <;> simp

theorem head?_append_of_some {α : Type} {l s : List α} {a : α}
    (h : l.head? = some a) : (l ++ s).head? = some a := by
  cases l with
  | nil => simp at h
  | cons x t => simpa using h

theorem enforce_of_parse_none (parse : String → Option Url) (conv : Conversation)
    (url : String) (hp : parse url = none) :
    enforce_context_length parse conv url = (conv, some RequestError.invalidUrl) := by
  simp [enforce_context_length, hp]

theorem enforce_of_parse_some (parse : String → Option Url) (conv : Conversation)
    (url : String) (u : Url) (hp : parse url = some u) :
    enforce_context_length parse conv url
      = (Conversation.mk conv.goal (some u)
          (if conv.url.map Url.host ≠ some u.host then conv.messages.take 1
           else conv.messages), none) := by
  simp [enforce_context_length, hp]

theorem respond_state (decode : String → Option Action) (conv2 : Conversation)
    (response : Option CreateChatCompletionResponse) :
    (respond decode conv2 response).1.goal = conv2.goal
    ∧ (respond decode conv2 response).1.url = conv2.url
    ∧ ∃ suffix, (respond decode conv2 response).1.messages = conv2.messages ++ suffix := by
  match response with
  | none => exact ⟨rfl, rfl, [], by simp [respond]⟩
  | some resp =>
      match hu : resp.usage with
      | none => exact ⟨by simp [respond, hu], by simp [respond, hu], [], by simp [respond, hu]⟩
      | some usg =>
          match hc : resp.choices.head? with
          | none =>
              exact ⟨by simp [respond, hu, hc], by simp [respond, hu, hc], [],
                by simp [respond, hu, hc]⟩
          | some choice =>
              refine ⟨?_, ?_, ?_⟩
              · cases hd : decode choice.message.content <;>
                  simp [respond, hu, hc, hd]
              · cases hd : decode choice.message.content <;>
                  simp [respond, hu, hc, hd]
              · refine ⟨[ChatCompletionRequestMessage.mk none choice.message.role
                  choice.message.content], ?_⟩
                cases hd : decode choice.message.content <;>
                  simp [respond, hu, hc, hd]

theorem request_action_of_parse_some (parse : String → Option Url)
    (decode : String → Option Action) (conv : Conversation)
    (url page_content : String) (response : Option CreateChatCompletionResponse)
    (u : Url) (hp : parse url = some u) :
    request_action parse decode conv url page_content response
      = respond decode
          (Conversation.mk conv.goal (some u)
            ((if conv.url.map Url.host ≠ some u.host then conv.messages.take 1
              else conv.messages)
             ++ [build_user_message conv.goal url page_content]))
          response := by
  rw [request_action, enforce_of_parse_some parse conv url u hp]

/-- The state component of request_action always has the goal unchanged,
and its message list extends the message list that context maintenance
produced. -/
theorem request_action_messages_shape (parse : String → Option Url)
    (decode : String → Option Action) (conv : Conversation)
    (url page_content : String) (response : Option CreateChatCompletionResponse) :
    ∃ suffix, (request_action parse decode conv url page_content response).1.messages
      = (enforce_context_length parse conv url).1.messages ++ suffix := by
  cases hp : parse url with
  | none =>
      refine ⟨[], ?_⟩
      rw [request_action, enforce_of_parse_none parse conv url hp]
      simp [enforce_of_parse_none parse conv url hp]
  | some u =>
      rw [request_action_of_parse_some parse decode conv url page_content response u hp,
        enforce_of_parse_some parse conv url u hp]
      obtain ⟨-, -, s, hs⟩ := respond_state decode
        (Conversation.mk conv.goal (some u)
          ((if conv.url.map Url.host ≠ some u.host then conv.messages.take 1
            else conv.messages)
           ++ [build_user_message conv.goal url page_content])) response
      exact ⟨build_user_message conv.goal url page_content :: s, by
        simpa [List.append_assoc] using hs⟩

theorem enforce_head (parse : String → Option Url) (conv : Conversation)
    (url : String) :
    (enforce_context_length parse conv url).1.messages.head? = conv.messages.head? := by
  cases hp : parse url with
  | none => rw [enforce_of_parse_none parse conv url hp]
  | some u =>
      rw [enforce_of_parse_some parse conv url u hp]
      by_cases h : conv.url.map Url.host ≠ some u.host
      · simp [h, head?_take_one]
      · simp [h]

theorem request_action_head (parse : String → Option Url)
    (decode : String → Option Action) (conv : Conversation)
    (url page_content : String) (response : Option CreateChatCompletionResponse)
    (m : ChatCompletionRequestMessage) (h : conv.messages.head? = some m) :
    (request_action parse decode conv url page_content response).1.messages.head?
      = some m := by
  obtain ⟨s, hs⟩ := request_action_messages_shape parse decode conv url page_content response
  rw [hs]
  exact head?_append_of_some (by rw [enforce_head]; exact h)

theorem runCalls_head (parse : String → Option Url) (decode : String → Option Action)
    (calls : List CallInput) :
    ∀ conv : Conversation, conv.messages.head? = some system_message →
      (runCalls parse decode conv calls).messages.head? = some system_message := by
  induction calls with
  | nil => intro conv h; simpa [runCalls] using h
  | cons c cs ih =>
      intro conv h
      rw [runCalls]
      exact ih _ (request_action_head _ _ _ _ _ _ _ h)

/-! ## Witness material: concrete URLs, parsers and decoders -/

def urlA : Url := Url.mk "https" (some "a.example") none "/page1"

def urlA2 : Url := Url.mk "http" (some "a.example") (some 8080) "/other"

def urlB : Url := Url.mk "http" (some "b.example") (some 8080) "/x"

def urlMailto : Url := Url.mk "mailto" none none "someone@example.com"

def urlData : Url := Url.mk "data" none none "text/plain,hi"

/-- A concrete URL parser covering the witness inputs. -/
def parseW (s : String) : Option Url :=
  if s = "https://a.example/page1" then some urlA
  else if s = "http://a.example:8080/other" then some urlA2
  else if s = "http://b.example:8080/x" then some urlB
  else if s = "mailto:someone@example.com" then some urlMailto
  else if s = "data:text/plain,hi" then some urlData
  else none

/-- A decoder that rejects every reply. -/
def decodeNone (_s : String) : Option Action := none

/-- A decoder that accepts every reply as a click on element 0. -/
def decodeClick (_s : String) : Option Action := some (Action.click 0)

/-- A response holding one choice and usage telemetry. -/
def respOk : CreateChatCompletionResponse :=
  CreateChatCompletionResponse.mk
    [Choice.mk (ChatCompletionResponseMessage.mk Role.assistant "CLICK 0")]
    (some (Usage.mk 42))

/-- A response holding one choice but no usage telemetry. -/
def respNoUsage : CreateChatCompletionResponse :=
  CreateChatCompletionResponse.mk
    [Choice.mk (ChatCompletionResponseMessage.mk Role.assistant "CLICK 0")]
    none

/-! ## Claim theorems -/

/-- C1 (code_bug evidence): on a response with at least one choice but
with usage absent, request_action does not append the Assistant message
and does not proceed to decode: it hits the expect call and panics, so
the operation aborts, contradicting the claim that usage is treated as
optional telemetry. -/
theorem missing_usage_panics :
    (request_action parseW decodeClick Conversation.default
        "https://a.example/page1" "page" (some respNoUsage)).2
      = RequestOutcome.panicked "Usage should be present."
    ∧ (request_action parseW decodeClick Conversation.default
        "https://a.example/page1" "page" (some respNoUsage)).1.messages
      = [system_message,
         build_user_message "Visit 10 webpages." "https://a.example/page1" "page"] :=
  ⟨rfl, rfl⟩

/-- C2: for every sequence of request_action calls starting from the
default conversation, whatever the parser, decoder and responses, the
history is never empty and its first entry is the fixed System
message. -/
theorem system_message_invariant (parse : String → Option Url)
    (decode : String → Option Action) (calls : List CallInput) :
    (runCalls parse decode Conversation.default calls).messages.head?
        = some system_message
    ∧ (runCalls parse decode Conversation.default calls).messages ≠ [] := by
  have h := runCalls_head parse decode calls Conversation.default rfl
  refine ⟨h, ?_⟩
  intro hnil
  rw [hnil] at h
  simp at h

/-- C3: when the URL parses and its host differs from the stored one
(including the case where no URL is stored yet, whose comparison also
fails), context maintenance truncates the history to exactly its first
entry, so immediately before the User append the history has length
one. -/
theorem host_change_reset (parse : String → Option Url) (conv : Conversation)
    (url : String) (u : Url) (hp : parse url = some u)
    (hdiff : conv.url.map Url.host ≠ some u.host)
    (hne : conv.messages ≠ []) :
    (enforce_context_length parse conv url).1.messages = conv.messages.take 1
    ∧ (enforce_context_length parse conv url).1.messages.length = 1 := by
  rw [enforce_of_parse_some parse conv url u hp]
  have hlen : 0 < conv.messages.length := List.length_pos.mpr hne
  refine ⟨by simp [hdiff], ?_⟩
  simp only [if_pos hdiff, List.length_take]
  omega

/-- Witness for C3 at a concrete host change. -/
theorem host_change_reset_witness :
    (enforce_context_length parseW
        (Conversation.mk "g" (some urlA) [system_message]) "http://b.example:8080/x").1.messages
      = (Conversation.mk "g" (some urlA) [system_message]).messages.take 1
    ∧ (enforce_context_length parseW
        (Conversation.mk "g" (some urlA) [system_message]) "http://b.example:8080/x").1.messages.length
      = 1 :=
  host_change_reset parseW (Conversation.mk "g" (some urlA) [system_message])
    "http://b.example:8080/x" urlB (by decide) (by decide) (by simp)

/-- C4: when the URL fails to parse, request_action returns the
invalid-URL error and the state is exactly the state before the call:
no truncation, no appended message, no host update, and the result does
not depend on the response at all. -/
theorem invalid_url_atomic (parse : String → Option Url)
    (decode : String → Option Action) (conv : Conversation)
    (url page_content : String) (response : Option CreateChatCompletionResponse)
    (hp : parse url = none) :
    request_action parse decode conv url page_content response
      = (conv, RequestOutcome.err RequestError.invalidUrl) := by
  rw [request_action, enforce_of_parse_none parse conv url hp]

/-- Witness for C4 at a concrete malformed URL. -/
theorem invalid_url_atomic_witness :
    request_action parseW decodeNone Conversation.default "not a url" "page" (some respOk)
      = (Conversation.default, RequestOutcome.err RequestError.invalidUrl) :=
  invalid_url_atomic parseW decodeNone Conversation.default "not a url" "page"
    (some respOk) (by decide)

theorem request_action_url (parse : String → Option Url)
    (decode : String → Option Action) (conv : Conversation)
    (url page_content : String) (response : Option CreateChatCompletionResponse)
    (u : Url) (hp : parse url = some u) :
    (request_action parse decode conv url page_content response).1.url = some u := by
  rw [request_action_of_parse_some parse decode conv url page_content response u hp]
  obtain ⟨-, hurl, -⟩ := respond_state decode _ response
  rw [hurl]

/-- C5: after a successful call whose URL parsed to host H, a second
call whose URL parses to the same host H leaves the history untouched
during context maintenance: immediately before the second User append,
the history is exactly as the first call left it. -/
theorem same_host_strict_accumulation (parse : String → Option Url)
    (decode : String → Option Action) (conv : Conversation)
    (url₁ pc₁ : String) (resp₁ : Option CreateChatCompletionResponse)
    (url₂ : String) (u₁ u₂ : Url) (a : Action)
    (h1 : parse url₁ = some u₁) (h2 : parse url₂ = some u₂)
    (hh : u₂.host = u₁.host)
    (_hok : (request_action parse decode conv url₁ pc₁ resp₁).2 = RequestOutcome.ok a) :
    (enforce_context_length parse
        (request_action parse decode conv url₁ pc₁ resp₁).1 url₂).1.messages
      = (request_action parse decode conv url₁ pc₁ resp₁).1.messages := by
  have hu := request_action_url parse decode conv url₁ pc₁ resp₁ u₁ h1
  rw [enforce_of_parse_some parse _ url₂ u₂ h2]
  have hcond : ¬ ((request_action parse decode conv url₁ pc₁ resp₁).1.url.map Url.host
      ≠ some u₂.host) := by
    rw [hu, hh]
    simp
  simp [hcond]

/-- Witness for C5: two calls on host a.example, the first successful. -/
theorem same_host_strict_accumulation_witness :
    (enforce_context_length parseW
        (request_action parseW decodeClick Conversation.default
          "https://a.example/page1" "p1" (some respOk)).1 "http://a.example:8080/other").1.messages
      = (request_action parseW decodeClick Conversation.default
          "https://a.example/page1" "p1" (some respOk)).1.messages :=
  same_host_strict_accumulation parseW decodeClick Conversation.default
    "https://a.example/page1" "p1" (some respOk) "http://a.example:8080/other"
    urlA urlA2 (Action.click 0) (by decide) (by decide) (by decide) rfl

/-- C6 counterexample: a response with zero choices whose usage field is
also absent does not fail with the no-choice error; it hits the expect
call on usage first and panics. -/
theorem empty_choices_counterexample :
    (request_action parseW decodeClick Conversation.default
        "https://a.example/page1" "page"
        (some (CreateChatCompletionResponse.mk [] none))).2
      = RequestOutcome.panicked "Usage should be present."
    ∧ ¬ ((request_action parseW decodeClick Conversation.default
        "https://a.example/page1" "page"
        (some (CreateChatCompletionResponse.mk [] none))).2
      = RequestOutcome.err RequestError.noCompletionChoice) :=
  ⟨rfl, by decide⟩

/-- C6 amended: when the response carries zero choices and its usage
field is present (so the expect call does not panic first), the call
fails with the no-choice error, no Assistant message is appended, and
the User message appended earlier in the same call remains as the last
entry. -/
theorem empty_choices_no_assistant (parse : String → Option Url)
    (decode : String → Option Action) (conv : Conversation)
    (url page_content : String) (u : Url) (usg : Usage)
    (hp : parse url = some u) :
    request_action parse decode conv url page_content
        (some (CreateChatCompletionResponse.mk [] (some usg)))
      = (Conversation.mk conv.goal (some u)
          ((enforce_context_length parse conv url).1.messages
            ++ [build_user_message conv.goal url page_content]),
         RequestOutcome.err RequestError.noCompletionChoice) := by
  rw [request_action_of_parse_some parse decode conv url page_content _ u hp,
    enforce_of_parse_some parse conv url u hp]
  rfl

/-- Witness for the C6 amended theorem. -/
theorem empty_choices_no_assistant_witness :
    request_action parseW decodeClick Conversation.default "https://a.example/page1" "page"
        (some (CreateChatCompletionResponse.mk [] (some (Usage.mk 7))))
      = (Conversation.mk Conversation.default.goal (some urlA)
          ((enforce_context_length parseW Conversation.default "https://a.example/page1").1.messages
            ++ [build_user_message Conversation.default.goal "https://a.example/page1" "page"]),
         RequestOutcome.err RequestError.noCompletionChoice) :=
  empty_choices_no_assistant parseW decodeClick Conversation.default
    "https://a.example/page1" "page" urlA (Usage.mk 7) (by decide)

/-- C7: when the completion request itself fails, the call returns the
completion-failed error and the history is the context-maintained
history plus the User message appended in step 2, which is not rolled
back. -/
theorem completion_failed_keeps_user (parse : String → Option Url)
    (decode : String → Option Action) (conv : Conversation)
    (url page_content : String) (u : Url)
    (hp : parse url = some u) :
    request_action parse decode conv url page_content none
      = (Conversation.mk conv.goal (some u)
          ((enforce_context_length parse conv url).1.messages
            ++ [build_user_message conv.goal url page_content]),
         RequestOutcome.err RequestError.completionFailed) := by
  rw [request_action_of_parse_some parse decode conv url page_content none u hp,
    enforce_of_parse_some parse conv url u hp]
  rfl

/-- Witness for C7 at a concrete transport failure. -/
theorem completion_failed_keeps_user_witness :
    request_action parseW decodeClick Conversation.default "https://a.example/page1" "page" none
      = (Conversation.mk Conversation.default.goal (some urlA)
          ((enforce_context_length parseW Conversation.default "https://a.example/page1").1.messages
            ++ [build_user_message Conversation.default.goal "https://a.example/page1" "page"]),
         RequestOutcome.err RequestError.completionFailed) :=
  completion_failed_keeps_user parseW decodeClick Conversation.default
    "https://a.example/page1" "page" urlA (by decide)

/-- C8: every call that passes URL validation appends exactly one User
message right after context maintenance, and its content lays out the
goal, the current URL and the page markup as three labeled fields in
fixed order. -/
theorem user_message_layout (parse : String → Option Url)
    (decode : String → Option Action) (conv : Conversation)
    (url page_content : String) (response : Option CreateChatCompletionResponse)
    (u : Url) (hp : parse url = some u) :
    (request_action parse decode conv url page_content response).1.messages.take
        ((enforce_context_length parse conv url).1.messages.length + 1)
      = (enforce_context_length parse conv url).1.messages
        ++ [ChatCompletionRequestMessage.mk none Role.user
            ("OBJECTIVE: " ++ conv.goal ++ "\nCURRENT URL: " ++ url
              ++ "\nPAGE CONTENT: " ++ page_content)] := by
  rw [request_action_of_parse_some parse decode conv url page_content response u hp,
    enforce_of_parse_some parse conv url u hp]
  obtain ⟨-, -, s, hs⟩ := respond_state decode
    (Conversation.mk conv.goal (some u)
      ((if conv.url.map Url.host ≠ some u.host then conv.messages.take 1
        else conv.messages)
       ++ [build_user_message conv.goal url page_content])) response
  have hlen : ((if conv.url.map Url.host ≠ some u.host then conv.messages.take 1
        else conv.messages) ++ [build_user_message conv.goal url page_content]).length
      = (if conv.url.map Url.host ≠ some u.host then conv.messages.take 1
        else conv.messages).length + 1 := by
    simp
  simp only at hs ⊢
  rw [hs, List.take_left' hlen]
  rfl

/-- Witness for C8 on a concrete call. -/
theorem user_message_layout_witness :
    (request_action parseW decodeClick Conversation.default
        "https://a.example/page1" "pg" (some respOk)).1.messages.take
        ((enforce_context_length parseW Conversation.default
          "https://a.example/page1").1.messages.length + 1)
      = (enforce_context_length parseW Conversation.default
          "https://a.example/page1").1.messages
        ++ [ChatCompletionRequestMessage.mk none Role.user
            ("OBJECTIVE: " ++ Conversation.default.goal
              ++ "\nCURRENT URL: " ++ "https://a.example/page1"
              ++ "\nPAGE CONTENT: " ++ "pg")] :=
  user_message_layout parseW decodeClick Conversation.default
    "https://a.example/page1" "pg" (some respOk) urlA (by decide)

/-- C9: the context-reset decision compares only the host components:
with a stored URL and a new URL of equal host, context maintenance
leaves the messages unmodified and stores the new URL, whatever the
schemes, ports and paths are. -/
theorem host_only_comparison (parse : String → Option Url) (conv : Conversation)
    (url : String) (u₁ u₂ : Url)
    (hcur : conv.url = some u₁) (hp : parse url = some u₂)
    (hh : u₂.host = u₁.host) :
    (enforce_context_length parse conv url).1
      = Conversation.mk conv.goal (some u₂) conv.messages := by
  rw [enforce_of_parse_some parse conv url u₂ hp]
  have hcond : ¬ (conv.url.map Url.host ≠ some u₂.host) := by
    rw [hcur, hh]
    simp
  simp [hcond]

/-- Witness for C9: the two URLs share the host a.example but differ in
scheme, port and path, and no reset happens. -/
theorem host_only_comparison_witness :
    urlA.scheme ≠ urlA2.scheme ∧ urlA.port ≠ urlA2.port ∧ urlA.path ≠ urlA2.path
    ∧ (enforce_context_length parseW
        (Conversation.mk "g" (some urlA) [system_message]) "http://a.example:8080/other").1
      = Conversation.mk "g" (some urlA2) [system_message] :=
  ⟨by decide, by decide, by decide,
    host_only_comparison parseW (Conversation.mk "g" (some urlA) [system_message])
      "http://a.example:8080/other" urlA urlA2 (by decide) (by decide) (by decide)⟩

theorem respond_not_invalid (decode : String → Option Action) (conv2 : Conversation)
    (response : Option CreateChatCompletionResponse) :
    (respond decode conv2 response).2 ≠ RequestOutcome.err RequestError.invalidUrl := by
  match response with
  | none => simp [respond]
  | some resp =>
      match hu : resp.usage with
      | none => simp [respond, hu]
      | some usg =>
          match hc : resp.choices.head? with
          | none => simp [respond, hu, hc]
          | some choice =>
              cases hd : decode choice.message.content <;> simp [respond, hu, hc, hd]

/-- C10: a URL that parses but has no host is accepted: the call does
not fail with the invalid-URL error, the stored URL is updated to it,
and a second call whose URL also parses with no host counts as same
host, so context maintenance leaves the messages untouched. -/
theorem hostless_url_accepted (parse : String → Option Url)
    (decode : String → Option Action) (conv : Conversation)
    (url₁ pc₁ : String) (resp₁ : Option CreateChatCompletionResponse)
    (url₂ : String) (u₁ u₂ : Url)
    (h1 : parse url₁ = some u₁) (hh1 : u₁.host = none)
    (h2 : parse url₂ = some u₂) (hh2 : u₂.host = none) :
    (request_action parse decode conv url₁ pc₁ resp₁).2
        ≠ RequestOutcome.err RequestError.invalidUrl
    ∧ (request_action parse decode conv url₁ pc₁ resp₁).1.url = some u₁
    ∧ (enforce_context_length parse
          (request_action parse decode conv url₁ pc₁ resp₁).1 url₂).1.messages
      = (request_action parse decode conv url₁ pc₁ resp₁).1.messages := by
  have hu := request_action_url parse decode conv url₁ pc₁ resp₁ u₁ h1
  refine ⟨?_, hu, ?_⟩
  · rw [request_action_of_parse_some parse decode conv url₁ pc₁ resp₁ u₁ h1]
    exact respond_not_invalid decode _ resp₁
  · rw [enforce_of_parse_some parse _ url₂ u₂ h2]
    have hcond : ¬ ((request_action parse decode conv url₁ pc₁ resp₁).1.url.map Url.host
        ≠ some u₂.host) := by
      rw [hu, hh2]
      simp [hh1]
    simp [hcond]

/-- Witness for C10: a mailto URL followed by a data URL. -/
theorem hostless_url_accepted_witness :
    (request_action parseW decodeClick Conversation.default
        "mailto:someone@example.com" "pg" (some respOk)).2
        ≠ RequestOutcome.err RequestError.invalidUrl
    ∧ (request_action parseW decodeClick Conversation.default
        "mailto:someone@example.com" "pg" (some respOk)).1.url = some urlMailto
    ∧ (enforce_context_length parseW
          (request_action parseW decodeClick Conversation.default
            "mailto:someone@example.com" "pg" (some respOk)).1 "data:text/plain,hi").1.messages
      = (request_action parseW decodeClick Conversation.default
          "mailto:someone@example.com" "pg" (some respOk)).1.messages :=
  hostless_url_accepted parseW decodeClick Conversation.default
    "mailto:someone@example.com" "pg" (some respOk) "data:text/plain,hi"
    urlMailto urlData (by decide) (by decide) (by decide) (by decide)

end RunWild
